import Mathlib

/-!
Verification of the MCP protocol engine of `go-mcp-servicenow`
(`pkg/mcp/server.go`): message dispatch, the tool-invocation pipeline
(rate limiting, handler resolution, telemetry, error normalization) and
the tool registry, shallowly embedded in Lean 4.

Dynamic JSON-like values (Go `interface{}` trees produced by
`json.Unmarshal`) are embedded as the inductive `JValue`; Go maps
(`map[string]interface{}`) are association lists with latest-insertion-wins
lookup; Go's two-valued type assertions become `Option`-returning
projections; a function returning `(*T, error)` becomes
`Except String (Option T)`.  Wall-clock time is an explicit `Int`
parameter `now`; side effects (telemetry/error callbacks, stderr logging)
are materialized as an emitted `Event` list.
-/

/-- A dynamic JSON-like value, as produced by decoding an inbound message:
Go's `interface{}` after `json.Unmarshal`.  A missing object key and an
explicit JSON `null` both read back as a nil interface value in Go, so both
are `JValue.null` here.  Numeric payloads are irrelevant to the dispatcher,
so numbers are carried as `Int`. -/
inductive JValue where
  | null : JValue
  | bool (b : Bool) : JValue
  | num (n : Int) : JValue
  | str (s : String) : JValue
  | arr (elems : List JValue) : JValue
  | obj (fields : List (String × JValue)) : JValue
  deriving Repr

/-- Go `v == nil` on an `interface{}` holding a decoded JSON value. -/
def JValue.isNull : JValue → Bool
  | .null => true
  | _ => false

/-- Go map read `m[k]`: a missing key yields the zero value, which for
`interface{}` is nil (`JValue.null`).  Association lists are kept with the
most recent insertion at the head, so the first match is the current
binding. -/
def jGet (fields : List (String × JValue)) (k : String) : JValue :=
  match fields with
  | [] => .null
  | (k', v) :: rest => if k' = k then v else jGet rest k

/-- Go type assertion `v.(string)`: `some` exactly on string values. -/
def jAsString : JValue → Option String
  | .str s => some s
  | _ => none

/-- Go type assertion `v.(map[string]interface{})`: `some` exactly on
object values. -/
def jAsObj : JValue → Option (List (String × JValue))
  | .obj fields => some fields
  | _ => none

/-- `ContentItem` of a tool result (field `Type` is always `"text"` in this
codebase). Modelled from the spec: the protocol types file accompanying
`server.go` is not under `src/`; the shape (typed content item) follows
§3 "Tool Invocation Result" and the literals used in `server.go`. -/
structure ContentItem where
  type : String
  text : String
  deriving Repr, DecidableEq

/-- `CallToolResult`: a list of content items plus a boolean error flag
(§3 "Tool Invocation Result"). -/
structure CallToolResult where
  content : List ContentItem
  isError : Bool
  deriving Repr, DecidableEq

/-- A tool descriptor. Modelled from the spec: the `Tool` struct itself is
in the missing types file; the dispatcher only reads its `name`, and
`tools/list` returns descriptors verbatim, so the schema payload is
carried as an opaque `description`. -/
structure Tool where
  name : String
  description : String
  deriving Repr, DecidableEq

/-- The request-scoped invocation context handed to cancellation-aware
handlers.  Its contents (credentials, cancellation signal) are opaque to
the dispatcher, which only threads it through. -/
structure Context where
  tag : String := ""
  deriving Repr, DecidableEq

/-- Arguments handed to a tool handler: Go's `map[string]interface{}`,
which may be nil (`none`) when the params had no well-formed `arguments`
object. -/
abbrev Args := Option (List (String × JValue))

/-- Outcome of a Go tool handler `func(...) (*CallToolResult, error)`:
either a possibly-nil result pointer, or a language-level error. -/
inductive ToolOutcome where
  | ok (result : Option CallToolResult) : ToolOutcome
  | err (msg : String) : ToolOutcome
  deriving Repr, DecidableEq

/-- `ToolHandler`: a plain tool handler. -/
def ToolHandler := Args → ToolOutcome

/-- `ToolHandlerWithContext`: a cancellation-aware tool handler. -/
def ToolHandlerWithContext := Context → Args → ToolOutcome

/-- A resource, as listed by the optional resource provider. Modelled from
the spec: provider payloads are opaque external-collaborator data (§1),
carried here as their identifying `uri`. -/
structure Resource where
  uri : String
  deriving Repr, DecidableEq

/-- Result of reading a resource. Modelled from the spec: opaque payload. -/
structure ReadResourceResult where
  text : String
  deriving Repr, DecidableEq

/-- A prompt, as listed by the optional prompt provider. Modelled from the
spec: opaque payload. -/
structure Prompt where
  name : String
  deriving Repr, DecidableEq

/-- Result of fetching a prompt. Modelled from the spec: opaque payload. -/
structure GetPromptResult where
  text : String
  deriving Repr, DecidableEq

/-- The optional `ResourceProvider` collaborator, as data: its `ListResources`
result and its `ReadResource` function. -/
structure ResourceProvider where
  listResources : List Resource
  readResource : String → Except String ReadResourceResult

/-- The optional `PromptProvider` collaborator, as data. -/
structure PromptProvider where
  listPrompts : List Prompt
  getPrompt : String → Args → Except String GetPromptResult

/-- `Server` (pkg/mcp/server.go): registry state, rate-limiter state, the
optional providers, and whether the two optional callbacks are installed.
The `handlers` / `ctxHandlers` Go maps are association lists whose head is
the most recent registration (`jGet`-style first-match lookup = Go map
read of the latest write).  Timestamps are integers. -/
structure Server where
  name : String
  version : String
  tools : List Tool
  handlers : List (String × ToolHandler)
  ctxHandlers : List (String × ToolHandlerWithContext)
  resourceProvider : Option ResourceProvider
  promptProvider : Option PromptProvider
  toolCallTimestamps : List Int
  hasOnToolCall : Bool
  hasOnError : Bool

/-- `NewServer`: fresh server with empty registry, empty rate window and no
providers or callbacks. -/
def newServer (name version : String) : Server :=
  { name := name
    version := version
    tools := []
    handlers := []
    ctxHandlers := []
    resourceProvider := none
    promptProvider := none
    toolCallTimestamps := []
    hasOnToolCall := false
    hasOnError := false }

/-- `RegisterTool`: appends the descriptor to the listing and overwrites
the handler entry for its name (map write = cons, with first-match read). -/
def registerTool (s : Server) (tool : Tool) (handler : ToolHandler) : Server :=
  { s with
    tools := s.tools ++ [tool]
    handlers := (tool.name, handler) :: s.handlers }

/-- `RegisterToolWithContext`: same, into the context-aware map. -/
def registerToolWithContext (s : Server) (tool : Tool)
    (handler : ToolHandlerWithContext) : Server :=
  { s with
    tools := s.tools ++ [tool]
    ctxHandlers := (tool.name, handler) :: s.ctxHandlers }

/-- `checkRateLimit`, at explicit time `now`: prune timestamps not strictly
after `now - 20` (`ts.After(twentySecondsAgo)`), reject (`true`) without
recording when 5 or more remain, otherwise record `now` and admit
(`false`).  Returns the limited flag and the updated timestamp list. -/
def checkRateLimit (now : Int) (timestamps : List Int) : Bool × List Int :=
  let newTimestamps := timestamps.filter (fun ts => now - 20 < ts)
  if 5 ≤ newTimestamps.length then
    (true, newTimestamps)
  else
    (false, newTimestamps ++ [now])

/-- JSON-RPC error-code constants. Modelled from the spec: the constants
file is not under `src/`; §6 fixes the taxonomy (parse failure, invalid
request, method not found, invalid params, internal error, plus an
application-reserved auth code), whose standard JSON-RPC values the HTTP
adapter also uses literally (`-32700`, `-32001` in `server.go`). -/
def ParseError : Int := -32700

/-- Modelled from the spec (§6 error taxonomy): invalid request. -/
def InvalidRequest : Int := -32600

/-- Modelled from the spec (§6 error taxonomy): method not found. -/
def MethodNotFound : Int := -32601

/-- Modelled from the spec (§6 error taxonomy): the dedicated
invalid-params code, which the tool-call validation branches do NOT use. -/
def InvalidParams : Int := -32602

/-- Modelled from the spec (§6 error taxonomy): the generic internal
error code. -/
def InternalError : Int := -32603

/-- `JSONRPCError`: numeric code, message, optional detail string. -/
structure JSONRPCError where
  code : Int
  message : String
  data : Option String
  deriving Repr, DecidableEq

/-- `JSONRPCRequest` after a successful decode: version tag, identifier
(`JValue.null` when absent — a notification), method name, params payload
(`JValue.null` when absent). -/
structure JSONRPCRequest where
  jsonrpc : String
  id : JValue
  method : String
  params : JValue
  deriving Repr

/-- The `Result` payload of a response, one constructor per method family
(Go stores these as `interface{}`). -/
inductive RpcResult where
  | initResult (protocolVersion : String) (toolsListChanged : Bool)
      (resources : Option (Bool × Bool)) (prompts : Option Bool)
      (serverName serverVersion : String) : RpcResult
  | listTools (tools : List Tool) : RpcResult
  | callTool (result : Option CallToolResult) : RpcResult
  | listResources (resources : List Resource) : RpcResult
  | readResource (result : ReadResourceResult) : RpcResult
  | listPrompts (prompts : List Prompt) : RpcResult
  | getPrompt (result : GetPromptResult) : RpcResult
  | emptyObj : RpcResult
  deriving Repr, DecidableEq

/-- `JSONRPCResponse`: version tag, echoed identifier, and at most one of
result / error. -/
structure JSONRPCResponse where
  jsonrpc : String
  id : JValue
  result : Option RpcResult
  error : Option JSONRPCError
  deriving Repr

/-- An observable side effect of dispatch: the telemetry callback firing
(`onToolCall`; wall-clock duration omitted), the error callback firing
(`onError`), or a line logged to stderr. -/
inductive Event where
  | toolCall (name : String) (args : Args) (success : Bool) : Event
  | errorCb (msg : String) (context : String) : Event
  | log (line : String) : Event

/-- `handleInitialize`: protocol version, capability set computed from the
registered optional providers, and the server identity.  The params
argument is accepted and ignored, as in the source. -/
def handleInitialize (s : Server) (_params : JValue) : RpcResult :=
  .initResult "2024-11-05" false
    (if s.resourceProvider.isSome then some (false, false) else none)
    (if s.promptProvider.isSome then some false else none)
    s.name s.version

/-- `handleListTools`: snapshot of the descriptor list. -/
def handleListTools (s : Server) : List Tool :=
  s.tools

/-- Handler resolution and invocation (lines 467–488 of `server.go`):
look up both maps; `none` when neither handler exists; otherwise invoke,
preferring the context-aware handler. -/
def resolveInvoke (s : Server) (ctx : Context) (name : String) (args : Args) :
    Option ToolOutcome :=
  match List.lookup name s.ctxHandlers, List.lookup name s.handlers with
  | some ctxHandler, _ => some (ctxHandler ctx args)
  | none, some handler => some (handler args)
  | none, none => none

/-- `handleCallToolWithContext`: validate params shape, consult the rate
limiter, resolve and invoke the handler, classify the outcome, fire
callbacks, and normalize handler errors into an error-flagged result.
Returns the Go `(*CallToolResult, error)` pair, the updated rate-window
timestamps, and the emitted callback events. -/
def handleCallToolWithContext (s : Server) (now : Int) (ctx : Context)
    (params : JValue) :
    Except String (Option CallToolResult) × List Int × List Event :=
  match jAsObj params with
  | none => (.error "invalid params type", s.toolCallTimestamps, [])
  | some paramsMap =>
    match jAsString (jGet paramsMap "name") with
    | none => (.error "missing tool name", s.toolCallTimestamps, [])
    | some name =>
      let arguments : Args := jAsObj (jGet paramsMap "arguments")
      let rl := checkRateLimit now s.toolCallTimestamps
      if rl.1 then
        (.ok (some { content := [{ type := "text", text := "Rate limit exceeded: Maximum 5 tool calls per 20 seconds. Please try again later." }], isError := true }), rl.2, [])
      else
        match resolveInvoke s ctx name arguments with
        | none =>
          (.ok (some { content := [{ type := "text", text := "Unknown tool: " ++ name }], isError := true }), rl.2, [])
        | some outcome =>
          let success := match outcome with
            | .ok result => match result with
              | none => true
              | some r => !r.isError
            | .err _ => false
          let telemetry : List Event :=
            if s.hasOnToolCall then [.toolCall name arguments success] else []
          match outcome with
          | .err msg =>
            (.ok (some { content := [{ type := "text", text := "Error: " ++ msg }], isError := true }),
              rl.2,
              telemetry ++ (if s.hasOnError then [.errorCb msg ("tool_" ++ name)] else []))
          | .ok result => (.ok result, rl.2, telemetry)

/-- `handleListResources`: empty list when no provider is registered. -/
def handleListResources (s : Server) : List Resource :=
  match s.resourceProvider with
  | none => []
  | some provider => provider.listResources

/-- `handleReadResource`: provider absent ⇒ error; params must be an
object with a string `uri`. -/
def handleReadResource (s : Server) (params : JValue) :
    Except String ReadResourceResult :=
  match s.resourceProvider with
  | none => .error "resources not supported"
  | some provider =>
    match jAsObj params with
    | none => .error "invalid params type"
    | some paramsMap =>
      match jAsString (jGet paramsMap "uri") with
      | none => .error "missing resource uri"
      | some uri => provider.readResource uri

/-- `handleListPrompts`: empty list when no provider is registered. -/
def handleListPrompts (s : Server) : List Prompt :=
  match s.promptProvider with
  | none => []
  | some provider => provider.listPrompts

/-- `handleGetPrompt`: provider absent ⇒ error; params must be an object
with a string `name` and optional object `arguments`. -/
def handleGetPrompt (s : Server) (params : JValue) :
    Except String GetPromptResult :=
  match s.promptProvider with
  | none => .error "prompts not supported"
  | some provider =>
    match jAsObj params with
    | none => .error "invalid params type"
    | some paramsMap =>
      match jAsString (jGet paramsMap "name") with
      | none => .error "missing prompt name"
      | some name => provider.getPrompt name (jAsObj (jGet paramsMap "arguments"))

/-- `handleNotification`: side effects only, no response.  Logs on
`notifications/initialized`; `notifications/cancelled` and unrecognized
notification methods are no-ops. -/
def handleNotification (req : JSONRPCRequest) : List Event :=
  if req.method = "notifications/initialized" then [.log "Client initialized"]
  else []

/-- `handleRequestWithContext`: build a response carrying the request id,
then route by method name; an unrecognized method yields `MethodNotFound`
naming it.  Fallible handlers surface their error as an `InternalError`
protocol error; the rest populate `result`.  Also returns the updated
rate-window state and emitted events (unchanged/empty except for
`tools/call`). -/
def handleRequestWithContext (s : Server) (now : Int) (ctx : Context)
    (req : JSONRPCRequest) : JSONRPCResponse × List Int × List Event :=
  let base : JSONRPCResponse :=
    { jsonrpc := "2.0", id := req.id, result := none, error := none }
  if req.method = "initialize" then
    ({ base with result := some (handleInitialize s req.params) },
      s.toolCallTimestamps, [])
  else if req.method = "tools/list" then
    ({ base with result := some (.listTools (handleListTools s)) },
      s.toolCallTimestamps, [])
  else if req.method = "tools/call" then
    let (callRes, timestamps, events) := handleCallToolWithContext s now ctx req.params
    match callRes with
    | .error msg =>
      ({ base with error := some { code := InternalError, message := msg, data := none } },
        timestamps, events)
    | .ok result =>
      ({ base with result := some (.callTool result) }, timestamps, events)
  else if req.method = "resources/list" then
    ({ base with result := some (.listResources (handleListResources s)) },
      s.toolCallTimestamps, [])
  else if req.method = "resources/read" then
    (match handleReadResource s req.params with
      | .error msg =>
        { base with error := some { code := InternalError, message := msg, data := none } }
      | .ok result => { base with result := some (.readResource result) },
      s.toolCallTimestamps, [])
  else if req.method = "prompts/list" then
    ({ base with result := some (.listPrompts (handleListPrompts s)) },
      s.toolCallTimestamps, [])
  else if req.method = "prompts/get" then
    (match handleGetPrompt s req.params with
      | .error msg =>
        { base with error := some { code := InternalError, message := msg, data := none } }
      | .ok result => { base with result := some (.getPrompt result) },
      s.toolCallTimestamps, [])
  else if req.method = "ping" then
    ({ base with result := some .emptyObj }, s.toolCallTimestamps, [])
  else
    ({ base with error := some { code := MethodNotFound, message := "Method not found: " ++ req.method, data := none } },
      s.toolCallTimestamps, [])

/-- `handleMessageWithContext`: the decode step (`json.Unmarshal`, an
external library call) is represented by its outcome `decoded`.  Decode
failure ⇒ parse-error response with a null id; a null/absent id ⇒ the
message is a notification, routed to `handleNotification` with no
response; otherwise the request is dispatched.  Returns the optional
response, the updated rate-window state and the emitted events. -/
def handleMessageWithContext (s : Server) (now : Int) (ctx : Context)
    (decoded : Except String JSONRPCRequest) :
    Option JSONRPCResponse × List Int × List Event :=
  match decoded with
  | .error e =>
    (some { jsonrpc := "2.0", id := .null, result := none, error := some { code := ParseError, message := "Parse error", data := some e } },
      s.toolCallTimestamps, [])
  | .ok req =>
    if req.id.isNull then
      (none, s.toolCallTimestamps, handleNotification req)
    else
      let (resp, timestamps, events) := handleRequestWithContext s now ctx req
      (some resp, timestamps, events)

/-- Scenario harness: feed a sequence of call times through the rate
limiter, starting from an empty window, collecting the limited flags. -/
def rateLimitRun (times : List Int) : List Bool × List Int :=
  times.foldl (fun acc t =>
    let r := checkRateLimit t acc.2
    (acc.1 ++ [r.1], r.2)) ([], [])

/-- A concrete server for witnesses: an echo tool, a failing tool, both
callbacks installed. -/
def sampleEchoHandler : ToolHandler :=
  fun _ => .ok (some { content := [{ type := "text", text := "Echo: hi" }], isError := false })
/-- A handler that always fails at the language level. -/
def sampleFailHandler : ToolHandler :=
  fun _ => .err "kaput"
/-- Witness server: fresh server, two registered tools, callbacks on. -/
def sampleServer : Server :=
  { registerTool
      (registerTool (newServer "servicenow-mcp" "1.0.0")
        { name := "echo", description := "echoes" } sampleEchoHandler)
      { name := "boom", description := "always fails" } sampleFailHandler
    with hasOnToolCall := true, hasOnError := true }
/-- Witness for C4: a server whose window already holds five fresh
timestamps rejects the sixth call without a protocol error. -/
def throttledServer : Server :=
  { registerTool (newServer "servicenow-mcp" "1.0.0")
      { name := "echo", description := "echoes" } sampleEchoHandler
    with toolCallTimestamps := [0, 0, 0, 0, 0] }
/-- Registration of a whole sequence of (descriptor, handler) pairs. -/
def registerAll (s : Server) (regs : List (Tool × ToolHandler)) : Server :=
  regs.foldl (fun acc r => registerTool acc r.1 r.2) s

/-- The window contents under the pruning rule as the spec words it —
remove only the timestamps strictly older than `now - 20`, keeping those
at or after `now - 20`.  Written from the spec for comparison with
`checkRateLimit`, whose `ts.After` test also drops a timestamp exactly
equal to `now - 20`. -/
def specWindowKeep (now : Int) (timestamps : List Int) : List Int :=
  timestamps.filter (fun ts => now - 20 ≤ ts)

/-- When an admission check accepts, the window state afterwards is the
pruned window with `now` appended. -/
theorem checkRateLimit_admitted (now : Int) (timestamps : List Int)
    (h : (checkRateLimit now timestamps).1 = false) :
    (checkRateLimit now timestamps).2 =
      timestamps.filter (fun ts => now - 20 < ts) ++ [now] := by
  by_cases h5 : 5 ≤ (timestamps.filter (fun ts => now - 20 < ts)).length
  · simp [checkRateLimit, h5] at h
  · simp [checkRateLimit, h5]

/-- C3 (amended): the rate limiter is a sliding window of width 20 and
capacity 5: each check prunes timestamps at or before `now - 20` (not
merely those strictly older), rejects without recording when at least 5
remain, and otherwise records `now` and accepts; hence from an empty
window, five immediate calls are admitted and the sixth is rejected, and
a later call past the window is admitted again. -/
theorem checkRateLimit_sliding_window (now : Int) (timestamps : List Int) :
    checkRateLimit now timestamps =
      (let live := timestamps.filter (fun ts => now - 20 < ts)
       (decide (5 ≤ live.length), if 5 ≤ live.length then live else live ++ [now]))
    ∧ (rateLimitRun [0, 0, 0, 0, 0, 0]).1 =
        [false, false, false, false, false, true]
    ∧ (rateLimitRun [0, 0, 0, 0, 0, 0, 21]).1 =
        [false, false, false, false, false, true, false] := by
  refine ⟨?_, by decide, by decide⟩
  by_cases h5 : 5 ≤ (timestamps.filter (fun ts => now - 20 < ts)).length
  · simp [checkRateLimit, h5]
  · simp [checkRateLimit, h5]

/-- C3 counterexample: at `now = 20` with five timestamps exactly 20 units
old, the pruning rule as the claim states it ("older than now - 20")
leaves all five in the window, so the claim predicts rejection without
recording; the code prunes all five and admits, recording `now`. -/
theorem checkRateLimit_boundary_counterexample :
    (specWindowKeep 20 [0, 0, 0, 0, 0]).length = 5
    ∧ checkRateLimit 20 [0, 0, 0, 0, 0] = (false, [20]) := by
  constructor
  · decide
  · decide

/-- C5: when the inbound bytes fail to decode, dispatch produces a
response whose error carries the parse-failure code and whose id is
null. -/
theorem parse_failure_yields_null_id_parse_error (s : Server) (now : Int)
    (ctx : Context) (e : String) :
    (handleMessageWithContext s now ctx (Except.error e)).1 =
      some { jsonrpc := "2.0", id := JValue.null, result := none,
             error := some { code := ParseError, message := "Parse error", data := some e } } := rfl

/-- Every routed request is answered with a response carrying the
request's id, whatever the method. -/
theorem handleRequest_id (s : Server) (now : Int) (ctx : Context)
    (req : JSONRPCRequest) :
    (handleRequestWithContext s now ctx req).1.id = req.id := by
  unfold handleRequestWithContext
  repeat' split
  all_goals rfl

/-- C1: a decoded envelope with a non-null id gets exactly one response,
whose id is the request's id; an envelope with a null/absent id is a
notification and gets no response, whatever its method. -/
theorem dispatch_one_response_iff_nonnull_id (s : Server) (now : Int)
    (ctx : Context) (req : JSONRPCRequest) :
    ((handleMessageWithContext s now ctx (Except.ok req)).1).map JSONRPCResponse.id =
      (if req.id.isNull then none else some req.id) := by
  unfold handleMessageWithContext
  by_cases h : req.id.isNull = true
  · simp [h]
  · simp only [Bool.not_eq_true] at h
    simp [h, handleRequest_id]

/-- Reduction of the object type assertion on an object value. -/
theorem jAsObj_obj (fields : List (String × JValue)) :
    jAsObj (JValue.obj fields) = some fields := rfl

/-- C2: when the resolved handler of a tools/call fails with a
language-level error, the dispatcher emits no protocol-level error: the
response is a success envelope whose result is one error-flagged content
item embedding the failure message behind an "Error: " marker, and the
installed error callback fires. -/
theorem tool_handler_error_stays_application_level (s : Server) (now : Int)
    (ctx : Context) (id : JValue) (pm : List (String × JValue))
    (name msg : String)
    (hname : jAsString (jGet pm "name") = some name)
    (hlim : (checkRateLimit now s.toolCallTimestamps).1 = false)
    (hinv : resolveInvoke s ctx name (jAsObj (jGet pm "arguments")) =
      some (ToolOutcome.err msg))
    (hcb : s.hasOnError = true) :
    (handleRequestWithContext s now ctx
        { jsonrpc := "2.0", id := id, method := "tools/call", params := JValue.obj pm }).1.error = none
    ∧ (handleRequestWithContext s now ctx
        { jsonrpc := "2.0", id := id, method := "tools/call", params := JValue.obj pm }).1.result =
      some (RpcResult.callTool (some { content := [{ type := "text", text := "Error: " ++ msg }], isError := true }))
    ∧ Event.errorCb msg ("tool_" ++ name) ∈
      (handleRequestWithContext s now ctx
        { jsonrpc := "2.0", id := id, method := "tools/call", params := JValue.obj pm }).2.2 := by
  simp only [handleRequestWithContext, handleCallToolWithContext, jAsObj_obj]
  simp [hname, hlim, hinv, hcb]




/-- Witness for C2 at a concrete request against `sampleServer`. -/
theorem tool_handler_error_stays_application_level_witness :
    (handleRequestWithContext sampleServer 0 { tag := "" }
        { jsonrpc := "2.0", id := JValue.num 1, method := "tools/call",
          params := JValue.obj [("name", JValue.str "boom")] }).1.error = none
    ∧ (handleRequestWithContext sampleServer 0 { tag := "" }
        { jsonrpc := "2.0", id := JValue.num 1, method := "tools/call",
          params := JValue.obj [("name", JValue.str "boom")] }).1.result =
      some (RpcResult.callTool (some { content := [{ type := "text", text := "Error: " ++ "kaput" }], isError := true }))
    ∧ Event.errorCb "kaput" ("tool_" ++ "boom") ∈
      (handleRequestWithContext sampleServer 0 { tag := "" }
        { jsonrpc := "2.0", id := JValue.num 1, method := "tools/call",
          params := JValue.obj [("name", JValue.str "boom")] }).2.2 :=
  tool_handler_error_stays_application_level sampleServer 0 { tag := "" }
    (JValue.num 1) [("name", JValue.str "boom")] "boom" "kaput"
    rfl rfl rfl rfl

/-- C4: a well-formed tools/call rejected by the rate limiter
short-circuits before consulting the registry — the outcome is the same
for any handler maps — and produces a successful response (no protocol
error) whose result is a single error-flagged content item naming the
rate limit. -/
theorem rate_limited_call_short_circuits (s : Server) (now : Int)
    (ctx : Context) (id : JValue) (pm : List (String × JValue)) (name : String)
    (hname : jAsString (jGet pm "name") = some name)
    (hlim : (checkRateLimit now s.toolCallTimestamps).1 = true) :
    (handleRequestWithContext s now ctx
        { jsonrpc := "2.0", id := id, method := "tools/call", params := JValue.obj pm }).1.error = none
    ∧ (handleRequestWithContext s now ctx
        { jsonrpc := "2.0", id := id, method := "tools/call", params := JValue.obj pm }).1.result =
      some (RpcResult.callTool (some { content := [{ type := "text", text := "Rate limit exceeded: Maximum 5 tool calls per 20 seconds. Please try again later." }], isError := true }))
    ∧ ∀ (hs : List (String × ToolHandler)) (chs : List (String × ToolHandlerWithContext)),
        handleCallToolWithContext { s with handlers := hs, ctxHandlers := chs } now ctx (JValue.obj pm) =
          handleCallToolWithContext s now ctx (JValue.obj pm) := by
  refine ⟨?_, ?_, ?_⟩
  · simp only [handleRequestWithContext, handleCallToolWithContext, jAsObj_obj]
    simp [hname, hlim]
  · simp only [handleRequestWithContext, handleCallToolWithContext, jAsObj_obj]
    simp [hname, hlim]
  · intro hs chs
    simp only [handleCallToolWithContext, jAsObj_obj]
    simp [hname, hlim]


/-- Witness for C4 at a concrete rate-limited request. -/
theorem rate_limited_call_short_circuits_witness :
    (handleRequestWithContext throttledServer 0 { tag := "" }
        { jsonrpc := "2.0", id := JValue.num 6, method := "tools/call",
          params := JValue.obj [("name", JValue.str "echo")] }).1.error = none
    ∧ (handleRequestWithContext throttledServer 0 { tag := "" }
        { jsonrpc := "2.0", id := JValue.num 6, method := "tools/call",
          params := JValue.obj [("name", JValue.str "echo")] }).1.result =
      some (RpcResult.callTool (some { content := [{ type := "text", text := "Rate limit exceeded: Maximum 5 tool calls per 20 seconds. Please try again later." }], isError := true }))
    ∧ ∀ (hs : List (String × ToolHandler)) (chs : List (String × ToolHandlerWithContext)),
        handleCallToolWithContext { throttledServer with handlers := hs, ctxHandlers := chs } 0 { tag := "" }
            (JValue.obj [("name", JValue.str "echo")]) =
          handleCallToolWithContext throttledServer 0 { tag := "" }
            (JValue.obj [("name", JValue.str "echo")]) :=
  rate_limited_call_short_circuits throttledServer 0 { tag := "" }
    (JValue.num 6) [("name", JValue.str "echo")] "echo" rfl (by decide)

/-- C6: a tools/call naming a tool with neither a plain nor a
cancellation-aware handler registered produces a success envelope (no
protocol error) whose result is an error-flagged content item whose text
contains the tool name. -/
theorem unknown_tool_success_envelope (s : Server) (now : Int)
    (ctx : Context) (id : JValue) (pm : List (String × JValue)) (name : String)
    (hname : jAsString (jGet pm "name") = some name)
    (hlim : (checkRateLimit now s.toolCallTimestamps).1 = false)
    (hplain : List.lookup name s.handlers = none)
    (hctx : List.lookup name s.ctxHandlers = none) :
    (handleRequestWithContext s now ctx
        { jsonrpc := "2.0", id := id, method := "tools/call", params := JValue.obj pm }).1.error = none
    ∧ (handleRequestWithContext s now ctx
        { jsonrpc := "2.0", id := id, method := "tools/call", params := JValue.obj pm }).1.result =
      some (RpcResult.callTool (some { content := [{ type := "text", text := "Unknown tool: " ++ name }], isError := true })) := by
  simp only [handleRequestWithContext, handleCallToolWithContext, jAsObj_obj]
  simp [hname, hlim, resolveInvoke, hplain, hctx]

/-- Witness for C6 at a concrete request naming an unregistered tool. -/
theorem unknown_tool_success_envelope_witness :
    (handleRequestWithContext sampleServer 0 { tag := "" }
        { jsonrpc := "2.0", id := JValue.num 2, method := "tools/call",
          params := JValue.obj [("name", JValue.str "no_such_tool")] }).1.error = none
    ∧ (handleRequestWithContext sampleServer 0 { tag := "" }
        { jsonrpc := "2.0", id := JValue.num 2, method := "tools/call",
          params := JValue.obj [("name", JValue.str "no_such_tool")] }).1.result =
      some (RpcResult.callTool (some { content := [{ type := "text", text := "Unknown tool: " ++ "no_such_tool" }], isError := true })) :=
  unknown_tool_success_envelope sampleServer 0 { tag := "" }
    (JValue.num 2) [("name", JValue.str "no_such_tool")] "no_such_tool"
    rfl rfl rfl rfl

/-- C7: a tools/call whose params is not an object, or whose params object
lacks a string name, is answered with a protocol-level error carrying the
generic internal-error code — not the dedicated invalid-params code — and
the corresponding message. -/
theorem malformed_call_params_use_internal_error_code (s : Server)
    (now : Int) (ctx : Context) (id : JValue) :
    (∀ p : JValue, jAsObj p = none →
      (handleRequestWithContext s now ctx
          { jsonrpc := "2.0", id := id, method := "tools/call", params := p }).1 =
        { jsonrpc := "2.0", id := id, result := none,
          error := some { code := InternalError, message := "invalid params type", data := none } })
    ∧ (∀ pm : List (String × JValue), jAsString (jGet pm "name") = none →
      (handleRequestWithContext s now ctx
          { jsonrpc := "2.0", id := id, method := "tools/call", params := JValue.obj pm }).1 =
        { jsonrpc := "2.0", id := id, result := none,
          error := some { code := InternalError, message := "missing tool name", data := none } })
    ∧ InternalError ≠ InvalidParams := by
  refine ⟨?_, ?_, by decide⟩
  · intro p hp
    simp only [handleRequestWithContext, handleCallToolWithContext]
    simp [hp]
  · intro pm hpm
    simp only [handleRequestWithContext, handleCallToolWithContext, jAsObj_obj]
    simp [hpm]

/-- Witness for C7: a string params payload and a params object whose
name field is a number. -/
theorem malformed_call_params_use_internal_error_code_witness :
    ((handleRequestWithContext sampleServer 0 { tag := "" }
          { jsonrpc := "2.0", id := JValue.num 3, method := "tools/call", params := JValue.str "nope" }).1 =
        { jsonrpc := "2.0", id := JValue.num 3, result := none,
          error := some { code := InternalError, message := "invalid params type", data := none } })
    ∧ ((handleRequestWithContext sampleServer 0 { tag := "" }
          { jsonrpc := "2.0", id := JValue.num 3, method := "tools/call",
            params := JValue.obj [("name", JValue.num 7)] }).1 =
        { jsonrpc := "2.0", id := JValue.num 3, result := none,
          error := some { code := InternalError, message := "missing tool name", data := none } }) :=
  ⟨(malformed_call_params_use_internal_error_code sampleServer 0 { tag := "" }
      (JValue.num 3)).1 (JValue.str "nope") rfl,
   (malformed_call_params_use_internal_error_code sampleServer 0 { tag := "" }
      (JValue.num 3)).2.1 [("name", JValue.num 7)] rfl⟩


/-- Registering a sequence appends its descriptors, in order. -/
theorem registerAll_tools (regs : List (Tool × ToolHandler)) (s : Server) :
    (registerAll s regs).tools = s.tools ++ regs.map Prod.fst := by
  induction regs generalizing s with
  | nil => simp [registerAll]
  | cons r rest ih =>
    simp only [registerAll, List.foldl_cons] at ih ⊢
    rw [ih]
    simp [registerTool]

/-- C8: tools/list returns exactly the registered descriptors in
registration order; registering two tools under one name lists both
descriptors while the later handler owns the dispatch entry. -/
theorem tools_list_order_and_shadowing (n v : String)
    (regs : List (Tool × ToolHandler)) (t1 t2 : Tool) (h1 h2 : ToolHandler)
    (hname : t2.name = t1.name) :
    handleListTools (registerAll (newServer n v) regs) = regs.map Prod.fst
    ∧ handleListTools (registerTool (registerTool (newServer n v) t1 h1) t2 h2) = [t1, t2]
    ∧ List.lookup t1.name (registerTool (registerTool (newServer n v) t1 h1) t2 h2).handlers = some h2 := by
  refine ⟨?_, ?_, ?_⟩
  · rw [handleListTools, registerAll_tools]
    simp [newServer]
  · simp [handleListTools, registerTool, newServer]
  · simp [registerTool, newServer, List.lookup, hname]

/-- Witness for C8 with two concrete same-named registrations. -/
theorem tools_list_order_and_shadowing_witness :
    handleListTools (registerAll (newServer "sn" "1.0")
        [({ name := "echo", description := "first" }, sampleEchoHandler),
         ({ name := "echo", description := "second" }, sampleFailHandler)]) =
      [{ name := "echo", description := "first" }, { name := "echo", description := "second" }]
    ∧ handleListTools (registerTool (registerTool (newServer "sn" "1.0")
          { name := "echo", description := "first" } sampleEchoHandler)
          { name := "echo", description := "second" } sampleFailHandler) =
      [{ name := "echo", description := "first" }, { name := "echo", description := "second" }]
    ∧ List.lookup (Tool.name { name := "echo", description := "first" })
        (registerTool (registerTool (newServer "sn" "1.0")
          { name := "echo", description := "first" } sampleEchoHandler)
          { name := "echo", description := "second" } sampleFailHandler).handlers = some sampleFailHandler :=
  tools_list_order_and_shadowing "sn" "1.0"
    [({ name := "echo", description := "first" }, sampleEchoHandler),
     ({ name := "echo", description := "second" }, sampleFailHandler)]
    { name := "echo", description := "first" } { name := "echo", description := "second" }
    sampleEchoHandler sampleFailHandler rfl

/-- C9: an admitted tools/call records its timestamp against the shared
window before the tool name is resolved, so the window afterwards is the
pruned window plus `now` whatever the registry holds — an unknown tool or
a failing handler consumes a slot exactly as a successful call does. -/
theorem admitted_call_always_consumes_slot (s : Server) (now : Int)
    (ctx : Context) (pm : List (String × JValue)) (name : String)
    (hname : jAsString (jGet pm "name") = some name)
    (hlim : (checkRateLimit now s.toolCallTimestamps).1 = false) :
    (handleCallToolWithContext s now ctx (JValue.obj pm)).2.1 =
      s.toolCallTimestamps.filter (fun ts => now - 20 < ts) ++ [now]
    ∧ now ∈ (handleCallToolWithContext s now ctx (JValue.obj pm)).2.1 := by
  have hrec := checkRateLimit_admitted now s.toolCallTimestamps hlim
  have hstate : (handleCallToolWithContext s now ctx (JValue.obj pm)).2.1 =
      s.toolCallTimestamps.filter (fun ts => now - 20 < ts) ++ [now] := by
    cases hr : resolveInvoke s ctx name (jAsObj (jGet pm "arguments")) with
    | none =>
      simp only [handleCallToolWithContext, jAsObj_obj]
      simp [hname, hlim, hr, hrec]
    | some outcome =>
      cases outcome with
      | ok r =>
        simp only [handleCallToolWithContext, jAsObj_obj]
        simp [hname, hlim, hr, hrec]
      | err m =>
        simp only [handleCallToolWithContext, jAsObj_obj]
        simp [hname, hlim, hr, hrec]
  exact ⟨hstate, by rw [hstate]; simp⟩

/-- Witness for C9: a call to an unregistered tool name still takes one
of the window slots. -/
theorem admitted_call_always_consumes_slot_witness :
    (handleCallToolWithContext sampleServer 0 { tag := "" }
        (JValue.obj [("name", JValue.str "no_such_tool")])).2.1 =
      sampleServer.toolCallTimestamps.filter (fun ts => 0 - 20 < ts) ++ [0]
    ∧ (0 : Int) ∈ (handleCallToolWithContext sampleServer 0 { tag := "" }
        (JValue.obj [("name", JValue.str "no_such_tool")])).2.1 :=
  admitted_call_always_consumes_slot sampleServer 0 { tag := "" }
    [("name", JValue.str "no_such_tool")] "no_such_tool" rfl rfl

/-- Reduction of the object type assertion on a null value. -/
theorem jAsObj_null : jAsObj JValue.null = none := rfl

/-- Reduction of the string type assertion on a string value. -/
theorem jAsString_str (s : String) : jAsString (JValue.str s) = some s := rfl

/-- C10: a tools/call whose params carry a valid string name but a
non-object `arguments` value behaves exactly like the same call with no
`arguments` at all: the failed assertion is discarded and the handler
runs with nil arguments. -/
theorem non_object_arguments_treated_as_nil (s : Server) (now : Int)
    (ctx : Context) (pm : List (String × JValue)) (name : String)
    (hname : jAsString (jGet pm "name") = some name)
    (hargs : jAsObj (jGet pm "arguments") = none) :
    handleCallToolWithContext s now ctx (JValue.obj pm) =
      handleCallToolWithContext s now ctx (JValue.obj [("name", JValue.str name)]) := by
  simp only [handleCallToolWithContext, jAsObj_obj]
  simp [hname, hargs, jGet, jAsObj_null, jAsString_str]

/-- Witness for C10: string-valued `arguments` alongside a registered
tool name. -/
theorem non_object_arguments_treated_as_nil_witness :
    handleCallToolWithContext sampleServer 0 { tag := "" }
        (JValue.obj [("name", JValue.str "echo"), ("arguments", JValue.str "oops")]) =
      handleCallToolWithContext sampleServer 0 { tag := "" }
        (JValue.obj [("name", JValue.str "echo")]) :=
  non_object_arguments_treated_as_nil sampleServer 0 { tag := "" }
    [("name", JValue.str "echo"), ("arguments", JValue.str "oops")] "echo" rfl rfl
